import Mathlib

/-!
Verification of the Thursday Sniper volatility predictor.

The program collects eight weekly price-action numbers, builds a fixed-order
feature vector (taking absolute values of the two signed daily bodies), feeds
it to a pre-trained regressor, inverse-transforms the log-scale prediction
with expm1, derives a symmetric safe/max band with a fixed 18-pip margin,
computes a directional bias label from the signs of the two raw bodies, and
emits volatility advisories at the 100/60 pip thresholds.  If the model
artifact cannot be loaded at startup, the whole prediction flow is disabled.

The numeric computations are embedded over the real numbers; the order-based
discrete logic (bias scoring, advisory thresholds) is stated generically over
a linear ordered field so that it is executable over the rationals.
-/

namespace ThursdaySniper

/-- The eight manually entered weekly statistics (`r_mon`, `b_mon_raw`, ...
in the source sidebar).  `body_mon_signed` and `body_tue_signed` carry sign
as directional information; `week_of_month` is one of 1..4 but enters the
numeric feature frame as a plain number. -/
structure RawWeeklyInputs where
  range_mon : ℝ
  range_tue : ℝ
  range_wed : ℝ
  body_mon_signed : ℝ
  body_tue_signed : ℝ
  body_wed_abs : ℝ
  adr_5day : ℝ
  week_of_month : ℝ

/-- The single-row feature frame `input_df`: `b_mon = abs(b_mon_raw)`,
`b_tue = abs(b_tue_raw)`, and the row
`[r_mon, r_tue, r_wed, b_mon, b_tue, b_wed, adr_val, week_num]`. -/
def build_features (raw : RawWeeklyInputs) : List ℝ :=
  [raw.range_mon, raw.range_tue, raw.range_wed,
   |raw.body_mon_signed|, |raw.body_tue_signed|,
   raw.body_wed_abs, raw.adr_5day, raw.week_of_month]

/-- `np.expm1 x = exp x - 1`, the exact inverse of the `log1p` training
transform. -/
noncomputable def expm1 (x : ℝ) : ℝ := Real.exp x - 1

/-- `pred_pips = np.expm1(pred_log)` (source line 80). -/
noncomputable def pred_pips (pred_log : ℝ) : ℝ := expm1 pred_log

/-- The bias score (source lines 83-87): start at 0, add 1 for each of the
two raw bodies that is strictly positive, subtract 1 for each that is
strictly negative.  The four sequential conditional updates of the source
are written as four conditional summands. -/
def biasScore {α : Type} [LinearOrderedField α] (bm bt : α) : ℤ :=
  (((0 + (if bm > 0 then 1 else 0))
      + (if bt > 0 then 1 else 0))
      - (if bm < 0 then 1 else 0))
      - (if bt < 0 then 1 else 0)

/-- The per-body sign contribution: +1 for a strictly positive body, -1 for
a strictly negative one, 0 for a flat body. -/
def sgnContrib {α : Type} [LinearOrderedField α] (x : α) : ℤ :=
  if 0 < x then 1 else if x < 0 then -1 else 0

/-- The three direction labels rendered by the app. -/
inductive BiasLabel
  | BULLISH
  | BEARISH
  | NEUTRAL
deriving DecidableEq

/-- Classification of the bias score (source lines 89-97):
score >= 1 is BULLISH, score <= -1 is BEARISH, otherwise NEUTRAL. -/
def compute_bias {α : Type} [LinearOrderedField α] (bm bt : α) : BiasLabel :=
  if biasScore bm bt ≥ 1 then BiasLabel.BULLISH
  else if biasScore bm bt ≤ -1 then BiasLabel.BEARISH
  else BiasLabel.NEUTRAL

/-- The two threshold-triggered advisory messages. -/
inductive Advisory
  | high
  | low
deriving DecidableEq

/-- The advisory emission (source lines 135-138): `if pred_pips > 100` emit
the high-volatility warning, `elif pred_pips < 60` emit the low-volatility
note, else nothing. -/
def advisory_of {α : Type} [LinearOrderedField α] (p : α) : Option Advisory :=
  if p > 100 then some Advisory.high
  else if p < 60 then some Advisory.low
  else none

/-- The fixed empirical median-absolute-error margin (source line 116). -/
def medianError : ℝ := 18.0

/-- A loaded model is its inference entry point: one feature row in, one
log-scale scalar out. -/
def Model : Type := List ℝ → ℝ

/-- Everything the app renders for one prediction. -/
structure PredictionOutput where
  targetPips : ℝ
  safePips : ℝ
  maxPips : ℝ
  biasLabel : BiasLabel
  advisoryMsg : Option Advisory

/-- The prediction flow run on a button press (source lines 65-138):
build the feature row, call the model, invert the log transform, derive the
±18 band, score the bias from the two signed raw bodies, and pick the
advisory from the target. -/
noncomputable def predictFlow (m : Model) (raw : RawWeeklyInputs) :
    PredictionOutput :=
  let predLog := m (build_features raw)
  let target := pred_pips predLog
  { targetPips := target
    safePips := target - medianError
    maxPips := target + medianError
    biasLabel := compute_bias raw.body_mon_signed raw.body_tue_signed
    advisoryMsg := advisory_of target }

/-- `load_model` (source lines 20-27): the artifact either deserializes to a
model (`(model, True)`) or the `try` fails — file absent or corrupt — and
the function returns `(None, False)`. -/
def load_model (artifact : Option Model) : Option Model × Bool :=
  match artifact with
  | some m => (some m, true)
  | none => (none, false)

/-- The three things a page render can amount to: the terminal
model-unavailable error (`st.error` + `st.stop`), the idle welcome screen,
or a prediction. -/
inductive AppResult
  | modelUnavailable
  | awaitingInput
  | prediction (out : PredictionOutput)

/-- The page flow (source lines 29-150): load the model once; if the load
flag is false, show the error and stop — no feature vector, no inference,
no numbers; otherwise run the prediction flow when the button is pressed.
The `(none, true)` branch is unreachable for `load_model`. -/
noncomputable def runApp (artifact : Option Model) (raw : RawWeeklyInputs)
    (btn : Bool) : AppResult :=
  match load_model artifact with
  | (_, false) => AppResult.modelUnavailable
  | (some m, true) =>
      if btn then AppResult.prediction (predictFlow m raw)
      else AppResult.awaitingInput
  | (none, true) => AppResult.modelUnavailable

/-! ## Helper lemmas -/

/-- The sequential score of the source is the sum of the two independent
per-body sign contributions. -/
theorem biasScore_eq_sgnContrib {α : Type} [LinearOrderedField α]
    (bm bt : α) : biasScore bm bt = sgnContrib bm + sgnContrib bt := by
  unfold biasScore sgnContrib
  split_ifs <;> first | omega | (exfalso; linarith)

theorem sgnContrib_bounds {α : Type} [LinearOrderedField α] (x : α) :
    -1 ≤ sgnContrib x ∧ sgnContrib x ≤ 1 := by
  unfold sgnContrib
  split_ifs <;> omega

theorem sgnContrib_neg {α : Type} [LinearOrderedField α] (x : α) :
    sgnContrib (-x) = -sgnContrib x := by
  unfold sgnContrib
  split_ifs <;> first | omega | (exfalso; linarith)

theorem compute_bias_bullish_iff {α : Type} [LinearOrderedField α]
    (bm bt : α) :
    compute_bias bm bt = BiasLabel.BULLISH ↔ 1 ≤ biasScore bm bt := by
  unfold compute_bias
  split_ifs with h1 h2 <;> simp_all

theorem compute_bias_bearish_iff {α : Type} [LinearOrderedField α]
    (bm bt : α) :
    compute_bias bm bt = BiasLabel.BEARISH ↔ biasScore bm bt ≤ -1 := by
  unfold compute_bias
  split_ifs with h1 h2 <;> simp_all
  omega

theorem compute_bias_neutral_iff {α : Type} [LinearOrderedField α]
    (bm bt : α) :
    compute_bias bm bt = BiasLabel.NEUTRAL ↔ biasScore bm bt = 0 := by
  unfold compute_bias
  split_ifs with h1 h2 <;> simp_all <;> omega

/-! ## Claim theorems -/

/-- C1: for every raw record, the feature row has exactly 8 entries in the
fixed order [range_mon, range_tue, range_wed, body_mon_abs, body_tue_abs,
body_wed_abs, adr_5day, week_of_month]; positions 3 and 4 are the absolute
values of the signed Monday and Tuesday bodies and the other six positions
are the raw inputs unchanged. -/
theorem build_features_fixed_order (raw : RawWeeklyInputs) :
    (build_features raw).length = 8 ∧
    (build_features raw)[0]? = some raw.range_mon ∧
    (build_features raw)[1]? = some raw.range_tue ∧
    (build_features raw)[2]? = some raw.range_wed ∧
    (build_features raw)[3]? = some |raw.body_mon_signed| ∧
    (build_features raw)[4]? = some |raw.body_tue_signed| ∧
    (build_features raw)[5]? = some raw.body_wed_abs ∧
    (build_features raw)[6]? = some raw.adr_5day ∧
    (build_features raw)[7]? = some raw.week_of_month := by
  refine ⟨rfl, rfl, rfl, rfl, rfl, rfl, rfl, rfl, rfl⟩

/-- C2: for every model and raw record, the rendered target is exactly
exp(pred_log) - 1 where pred_log is the scalar the model returns on the
feature row — the exact inverse of the log1p training transform. -/
theorem target_exact_inverse_transform (m : Model) (raw : RawWeeklyInputs) :
    (predictFlow m raw).targetPips =
      Real.exp (m (build_features raw)) - 1 := by
  rfl

/-- C3: for every prediction, safe = target - 18 and max = target + 18,
hence safe + max = 2 * target and max - safe = 36, independent of the
model output. -/
theorem band_margin_invariant (m : Model) (raw : RawWeeklyInputs) :
    (predictFlow m raw).safePips = (predictFlow m raw).targetPips - 18 ∧
    (predictFlow m raw).maxPips = (predictFlow m raw).targetPips + 18 ∧
    (predictFlow m raw).safePips + (predictFlow m raw).maxPips =
      2 * (predictFlow m raw).targetPips ∧
    (predictFlow m raw).maxPips - (predictFlow m raw).safePips = 36 := by
  have hsafe : (predictFlow m raw).safePips =
      (predictFlow m raw).targetPips - medianError := rfl
  have hmax : (predictFlow m raw).maxPips =
      (predictFlow m raw).targetPips + medianError := rfl
  have hm : medianError = 18 := by norm_num [medianError]
  refine ⟨?_, ?_, ?_, ?_⟩ <;> simp only [hsafe, hmax, hm] <;> ring

/-- C4: over all real bodies, the score is the sum of the two per-body
sign contributions (+1 strictly positive, -1 strictly negative, 0 at
zero), lies in [-2, 2], and the label is BULLISH iff score >= 1, BEARISH
iff score <= -1, NEUTRAL otherwise (iff score = 0); the function is total
and deterministic by construction. -/
theorem bias_scoring_rule (bm bt : ℝ) :
    biasScore bm bt = sgnContrib bm + sgnContrib bt ∧
    -2 ≤ biasScore bm bt ∧ biasScore bm bt ≤ 2 ∧
    (compute_bias bm bt = BiasLabel.BULLISH ↔ 1 ≤ biasScore bm bt) ∧
    (compute_bias bm bt = BiasLabel.BEARISH ↔ biasScore bm bt ≤ -1) ∧
    (compute_bias bm bt = BiasLabel.NEUTRAL ↔ biasScore bm bt = 0) := by
  have hd := biasScore_eq_sgnContrib bm bt
  have h1 := sgnContrib_bounds bm
  have h2 := sgnContrib_bounds bt
  exact ⟨hd, by omega, by omega, compute_bias_bullish_iff bm bt,
    compute_bias_bearish_iff bm bt, compute_bias_neutral_iff bm bt⟩

/-- C5: when the model artifact is absent or fails to deserialize (the
load returns no model), every page render is the terminal
model-unavailable error, for any raw inputs and whether or not the button
is pressed: no prediction output is ever produced. -/
theorem model_unavailable_refuses (raw : RawWeeklyInputs) (btn : Bool) :
    runApp none raw btn = AppResult.modelUnavailable := by
  rfl

/-- C6: negating both signed bodies simultaneously swaps BULLISH and
BEARISH and fixes NEUTRAL, and the label is NEUTRAL exactly when the sum
of the two sign contributions is 0. -/
theorem bias_negation_symmetry (bm bt : ℝ) :
    (compute_bias bm bt = BiasLabel.BULLISH ↔
      compute_bias (-bm) (-bt) = BiasLabel.BEARISH) ∧
    (compute_bias bm bt = BiasLabel.BEARISH ↔
      compute_bias (-bm) (-bt) = BiasLabel.BULLISH) ∧
    (compute_bias bm bt = BiasLabel.NEUTRAL ↔
      compute_bias (-bm) (-bt) = BiasLabel.NEUTRAL) ∧
    (compute_bias bm bt = BiasLabel.NEUTRAL ↔
      sgnContrib bm + sgnContrib bt = 0) := by
  have hs : biasScore (-bm) (-bt) = -biasScore bm bt := by
    rw [biasScore_eq_sgnContrib, biasScore_eq_sgnContrib,
      sgnContrib_neg, sgnContrib_neg]
    omega
  refine ⟨?_, ?_, ?_, ?_⟩
  · rw [compute_bias_bullish_iff, compute_bias_bearish_iff, hs]
    omega
  · rw [compute_bias_bearish_iff, compute_bias_bullish_iff, hs]
    omega
  · rw [compute_bias_neutral_iff, compute_bias_neutral_iff, hs]
    omega
  · rw [compute_bias_neutral_iff, biasScore_eq_sgnContrib]

/-- C7: two runs that agree on the two signed bodies but use arbitrary
other raw inputs and arbitrary models produce the same bias label: the
bias computation reads only the two signed raw bodies. -/
theorem bias_independent_of_model (m1 m2 : Model)
    (r1 r2 : RawWeeklyInputs)
    (hmon : r1.body_mon_signed = r2.body_mon_signed)
    (htue : r1.body_tue_signed = r2.body_tue_signed) :
    (predictFlow m1 r1).biasLabel = (predictFlow m2 r2).biasLabel := by
  show compute_bias r1.body_mon_signed r1.body_tue_signed =
    compute_bias r2.body_mon_signed r2.body_tue_signed
  rw [hmon, htue]

/-- Witness for C7: the end-to-end scenario inputs next to a run with every
other field and the model changed; the bias labels coincide. -/
theorem bias_independent_of_model_witness :
    (RawWeeklyInputs.mk 60 70 55 10 (-20) 30 61.67 2).body_mon_signed =
      (RawWeeklyInputs.mk 1 2 3 10 (-20) 4 5 1).body_mon_signed ∧
    (RawWeeklyInputs.mk 60 70 55 10 (-20) 30 61.67 2).body_tue_signed =
      (RawWeeklyInputs.mk 1 2 3 10 (-20) 4 5 1).body_tue_signed ∧
    (predictFlow (fun _ => 0)
        (RawWeeklyInputs.mk 60 70 55 10 (-20) 30 61.67 2)).biasLabel =
      (predictFlow (fun _ => 5)
        (RawWeeklyInputs.mk 1 2 3 10 (-20) 4 5 1)).biasLabel :=
  ⟨rfl, rfl,
    bias_independent_of_model (fun _ => 0) (fun _ => 5)
      (RawWeeklyInputs.mk 60 70 55 10 (-20) 30 61.67 2)
      (RawWeeklyInputs.mk 1 2 3 10 (-20) 4 5 1) rfl rfl⟩

/-- C8: the high-volatility advisory is emitted exactly when the target
exceeds 100 pips and the low-volatility advisory exactly when it is below
60 pips. -/
theorem advisory_thresholds (p : ℝ) :
    (advisory_of p = some Advisory.high ↔ 100 < p) ∧
    (advisory_of p = some Advisory.low ↔ p < 60) := by
  unfold advisory_of
  constructor
  · split_ifs with h1 h2 <;> simp_all
  · split_ifs with h1 h2 <;> simp_all
    linarith

/-- C9: on the closed band 60 <= target <= 100, boundaries included, no
advisory is emitted at all, and the two advisories are mutually
exclusive. -/
theorem advisory_quiet_band (p : ℝ) :
    (advisory_of p = none ↔ 60 ≤ p ∧ p ≤ 100) ∧
    ¬(advisory_of p = some Advisory.high ∧
        advisory_of p = some Advisory.low) := by
  constructor
  · unfold advisory_of
    split_ifs with h1 h2 <;> constructor <;> intro h
    · simp at h
    · exact absurd h1 (not_lt.mpr h.2)
    · simp at h
    · exact absurd h2 (not_lt.mpr h.1)
    · exact ⟨not_lt.mp h2, not_lt.mp h1⟩
    · rfl
  · rintro ⟨hh, hl⟩
    rw [hh] at hl
    exact Advisory.noConfusion (Option.some.inj hl)

/-- C10: the band is not clamped at zero: with a model returning
pred_log = 0 the target is exp 0 - 1 = 0 and the reported safe value is
-18, strictly negative. -/
theorem band_not_clamped :
    (predictFlow (fun _ => 0)
        (RawWeeklyInputs.mk 60 70 55 10 (-20) 30 61.67 2)).targetPips = 0 ∧
    (predictFlow (fun _ => 0)
        (RawWeeklyInputs.mk 60 70 55 10 (-20) 30 61.67 2)).safePips = -18 ∧
    (predictFlow (fun _ => 0)
        (RawWeeklyInputs.mk 60 70 55 10 (-20) 30 61.67 2)).safePips < 0 := by
  have ht : (predictFlow (fun _ => 0)
      (RawWeeklyInputs.mk 60 70 55 10 (-20) 30 61.67 2)).targetPips = 0 := by
    show pred_pips 0 = 0
    simp [pred_pips, expm1, Real.exp_zero]
  have hs : (predictFlow (fun _ => 0)
      (RawWeeklyInputs.mk 60 70 55 10 (-20) 30 61.67 2)).safePips =
      pred_pips 0 - medianError := rfl
  have hp : pred_pips 0 = 0 := by simp [pred_pips, expm1, Real.exp_zero]
  refine ⟨ht, ?_, ?_⟩ <;> rw [hs, hp] <;> simp [medianError] <;> norm_num

end ThursdaySniper
